import Mathlib

/-
Verification of the trace-correlated logging decorator of the easylog
repository (pkg/otel/trace.go, pkg/otel config/options), via a shallow
embedding.  Severities are zapcore.Level values (a Go int8), modelled as
Int.  The live call stack read by runtime.Callers is modelled as an
explicit list of frames, index 0 being the frame of recordCaller itself
(the caller of runtime.Callers); one program counter corresponds to one
frame (the documented baseline of runtime.CallersFrames, without inline
expansion).  Spans are modelled as a record of their observable state:
the recording flag, the list of added events and the error-status
message last set by SetStatus(codes.Error, msg).
-/

namespace EasyLog

/-- zapcore.DebugLevel = -1. -/
def DebugLevel : Int := -1

/-- zapcore.InfoLevel = 0. -/
def InfoLevel : Int := 0

/-- zapcore.WarnLevel = 1. -/
def WarnLevel : Int := 1

/-- zapcore.ErrorLevel = 2. -/
def ErrorLevel : Int := 2

/-- zapcore.DPanicLevel = 3. -/
def DPanicLevel : Int := 3

/-- zapcore.PanicLevel = 4. -/
def PanicLevel : Int := 4

/-- zapcore.FatalLevel = 5. -/
def FatalLevel : Int := 5

/-- zapcore.Level.String: the lowercase name of a known level, and
Go fmt "Level(%d)" for any other value. -/
def levelString (l : Int) : String :=
  if l = -1 then "debug"
  else if l = 0 then "info"
  else if l = 1 then "warn"
  else if l = 2 then "error"
  else if l = 3 then "dpanic"
  else if l = 4 then "panic"
  else if l = 5 then "fatal"
  else "Level(" ++ toString l ++ ")"

/-- An OpenTelemetry attribute.KeyValue restricted to the two payload
kinds the decorator produces: string-valued and int-valued. -/
inductive Attr where
  | str (key : String) (value : String)
  | int (key : String) (value : Int)
deriving DecidableEq, Repr

/-- One resolved stack frame as runtime.CallersFrames reports it:
function name, source file and line. -/
structure Frame where
  function : String
  file : String
  line : Int
deriving DecidableEq, Repr

/-- The line recordCaller writes into the stack-text builder for one
frame: function, space, file, colon, line, newline. -/
def frameLine (f : Frame) : String :=
  f.function ++ " " ++ f.file ++ ":" ++ toString f.line ++ "\n"

/-- recordCaller (trace.go).  `stack` is the live call stack above
runtime.Callers, innermost first (index 0 = recordCaller's own frame),
so runtime.Callers(skip+1, pc) captures frames starting at index
`skip`.  `cc = captured.length` frames are yielded by CallersFrames;
the loop `for i < cc { next, more := frames.Next(); if !more break }`
breaks on the frame whose `more` is false, i.e. the last yielded frame,
so exactly `captured.dropLast` frames are processed.  The first
processed frame contributes the code.function/code.filepath/code.lineno
triple; when callerDepth > 0 every processed frame contributes one
`frameLine` to the stack text, which is appended as one attribute after
the loop (even when empty). -/
def recordCaller (stack : List Frame) (attrs : List Attr)
    (callerDepth : Int) (skip : Nat) : List Attr :=
  if 0 ≤ callerDepth then
    let stackFlag : Bool := callerDepth ≠ 0
    let pcLen : Nat := if callerDepth = 0 then 1 else callerDepth.toNat
    let captured := (stack.drop skip).take pcLen
    let processed := captured.dropLast
    let attrs1 :=
      match processed with
      | [] => attrs
      | f :: _ =>
          attrs ++ [Attr.str "code.function" f.function,
                    Attr.str "code.filepath" f.file,
                    Attr.int "code.lineno" f.line]
    if stackFlag then
      attrs1 ++ [Attr.str "exception.stacktrace"
                   (String.join (processed.map frameLine))]
    else attrs1
  else attrs

/-- The observable state of the active span: whether it records, the
events added so far (name and attributes) and the message of the last
SetStatus(codes.Error, msg) call, if any. -/
structure Span where
  recording : Bool
  events : List (String × List Attr)
  status : Option String
deriving DecidableEq, Repr

/-- The trace-correlation fields shared by the stdLogger and the
stdSugaredLogger structs: the mirror threshold (LogLevel), the
error-status threshold (ErrorStatusLevel), the stack-capture depth
(an int8) and the extra caller skip (a uint8, modelled as Nat with the
wrap applied where the Go code widens it). -/
structure TraceCfg where
  LogLevel : Int
  ErrorStatusLevel : Int
  CallerDepth : Int
  CallerSkip : Nat
deriving DecidableEq, Repr

/-- stdLogger.traceInfo: on a non-recording span do nothing; otherwise
add a "log" event carrying severity, message and caller attributes when
lvl >= LogLevel, and set the error status to the message when
lvl >= ErrorStatusLevel.  The skip passed to recordCaller is
int(l.CallerSkip+3), computed in uint8 arithmetic. -/
def traceInfo (l : TraceCfg) (stack : List Frame) (span : Span)
    (lvl : Int) (msg : String) : Span :=
  if span.recording = false then span
  else
    let span1 :=
      if l.LogLevel ≤ lvl then
        let attrs : List Attr := []
        let attrs := attrs ++ [Attr.str "log.severity" (levelString lvl)]
        let attrs := attrs ++ [Attr.str "log.message" msg]
        let attrs := recordCaller stack attrs l.CallerDepth
          ((l.CallerSkip + 3) % 256)
        { span with events := span.events ++ [("log", attrs)] }
      else span
    if l.ErrorStatusLevel ≤ lvl then { span1 with status := some msg }
    else span1

/-- A call forwarded to the wrapped structured Sink: severity, message
and the fields, of an opaque field type. -/
structure SinkCall (F : Type) where
  lvl : Int
  msg : String
  fields : List F
deriving DecidableEq, Repr

/-- stdLogger.Log (and each leveled method, which is Log at a fixed
level): run traceInfo on the held context's span, then forward
severity, message and fields verbatim to the wrapped zap logger. -/
def stdLog {F : Type} (l : TraceCfg) (stack : List Frame) (span : Span)
    (lvl : Int) (msg : String) (fields : List F) : Span × SinkCall F :=
  (traceInfo l stack span lvl msg, ⟨lvl, msg, fields⟩)

/-- A Go interface{} argument of a sugared call, restricted to the two
kinds the claims exercise: strings and ints. -/
inductive Arg where
  | str (s : String)
  | int (n : Int)
deriving DecidableEq, Repr

/-- Go fmt default formatting (%v) of an argument. -/
def argString : Arg → String
  | Arg.str s => s
  | Arg.int n => toString n

/-- Whether the argument is a Go string (the type switch in getMessage
and the spacing rule of fmt.Sprint look at this). -/
def Arg.isString : Arg → Bool
  | Arg.str _ => true
  | Arg.int _ => false

/-- Modelled from the Go fmt documentation: the `type=value` text fmt
prints for an argument inside %!( ... ) error markers. -/
def argExtraString : Arg → String
  | Arg.str s => "string=" ++ s
  | Arg.int n => "int=" ++ toString n

/-- Modelled from the Go fmt documentation: rendering of one verb
character applied to one argument, for the verbs %d, %s and %v; a
mismatched or unknown verb produces fmt's %!verb(type=value) marker. -/
def verbRender (c : Char) (a : Arg) : String :=
  if c = 'd' then
    match a with
    | Arg.int n => toString n
    | Arg.str s => "%!d(string=" ++ s ++ ")"
  else if c = 's' then
    match a with
    | Arg.str s => s
    | Arg.int n => "%!s(int=" ++ toString n ++ ")"
  else if c = 'v' then argString a
  else "%!" ++ String.singleton c ++ "(" ++ argExtraString a ++ ")"

/-- Modelled from the Go fmt documentation: fmt.Sprintf over the
template's characters, consuming one argument per verb; %% is a literal
percent, a missing argument yields %!verb(MISSING), a trailing lone %
yields %!(NOVERB), and left-over arguments append an %!(EXTRA ...)
marker. -/
def sprintfAux : List Char → List Arg → String
  | [], [] => ""
  | [], a :: rest =>
      "%!(EXTRA " ++
        String.intercalate ", " ((a :: rest).map argExtraString) ++ ")"
  | ['%'], args => "%!(NOVERB)" ++ sprintfAux [] args
  | '%' :: c :: rest, args =>
      if c = '%' then "%" ++ sprintfAux rest args
      else
        match args with
        | [] => "%!" ++ String.singleton c ++ "(MISSING)" ++ sprintfAux rest []
        | a :: as => verbRender c a ++ sprintfAux rest as
  | c :: rest, args => String.singleton c ++ sprintfAux rest args

/-- fmt.Sprintf on a template string. -/
def sprintf (template : String) (args : List Arg) : String :=
  sprintfAux template.data args

/-- Modelled from the Go fmt documentation: fmt.Sprint formats operands
in their default format and adds a space between two operands exactly
when neither is a string. -/
def sprint : List Arg → String
  | [] => ""
  | [a] => argString a
  | a :: b :: rest =>
      argString a ++
        (if a.isString || b.isString then "" else " ") ++
        sprint (b :: rest)

/-- Modelled from the Go fmt documentation: fmt.Sprintln formats
operands in their default format, always separated by single spaces,
and appends a newline. -/
def sprintln (args : List Arg) : String :=
  String.intercalate " " (args.map argString) ++ "\n"

/-- getMessage (trace.go, copied from zap): no arguments returns the
template verbatim; a non-empty template is printf-substituted; an empty
template with exactly one string argument returns it verbatim; any
other shape is fmt.Sprint-joined. -/
def getMessage (template : String) (fmtArgs : List Arg) : String :=
  if fmtArgs.length = 0 then template
  else if template ≠ "" then sprintf template fmtArgs
  else
    match fmtArgs with
    | [Arg.str s] => s
    | _ => sprint fmtArgs

/-- getMessageln (trace.go, copied from zap): fmt.Sprintln the
arguments and drop the final byte (the newline); the slice
msg[:len(msg)-1] is modelled on the character list, which agrees with
the byte slice because the last character is always the one-byte
newline. -/
def getMessageln (fmtArgs : List Arg) : String :=
  String.mk (sprintln fmtArgs).data.dropLast

/-- stdSugaredLogger.sugaredTraceInfo: on a non-recording span do
nothing; when the severity is below both thresholds return before any
message materialization; otherwise resolve the message (line mode via
getMessageln, else getMessage), then mirror and set status exactly as
traceInfo does, with skip int(3+s.CallerSkip) in uint8 arithmetic. -/
def sugaredTraceInfo (s : TraceCfg) (stack : List Frame) (span : Span)
    (lvl : Int) (msg0 : String) (ln : Bool) (args : List Arg) : Span :=
  if span.recording = false then span
  else if lvl < s.LogLevel ∧ lvl < s.ErrorStatusLevel then span
  else
    let msg := if ln then getMessageln args else getMessage msg0 args
    let span1 :=
      if s.LogLevel ≤ lvl then
        let attrs : List Attr := []
        let attrs := attrs ++ [Attr.str "log.severity" (levelString lvl)]
        let attrs := attrs ++ [Attr.str "log.message" msg]
        let attrs := recordCaller stack attrs s.CallerDepth
          ((3 + s.CallerSkip) % 256)
        { span with events := span.events ++ [("log", attrs)] }
      else span
    if s.ErrorStatusLevel ≤ lvl then { span1 with status := some msg }
    else span1

/-- A call forwarded to the wrapped sugared Sink, in one of the four
call shapes of the API: positional (Debug..), template (Debugf..),
key-value (Debugw..) and line (Debugln..), always with the caller's
original arguments. -/
inductive SugCall where
  | plain (lvl : Int) (args : List Arg)
  | f (lvl : Int) (template : String) (args : List Arg)
  | w (lvl : Int) (msg : String) (kvs : List Arg)
  | ln (lvl : Int) (args : List Arg)
deriving DecidableEq, Repr

/-- The positional family (Debug, Info, .., Fatal): sugaredTraceInfo
with an empty template and ln=false, then forward the original
arguments to the wrapped sugared logger. -/
def sugaredPlain (s : TraceCfg) (stack : List Frame) (span : Span)
    (lvl : Int) (args : List Arg) : Span × SugCall :=
  (sugaredTraceInfo s stack span lvl "" false args, SugCall.plain lvl args)

/-- The template family (Debugf, .., Fatalf): sugaredTraceInfo with the
template and ln=false, then forward template and original arguments. -/
def sugaredF (s : TraceCfg) (stack : List Frame) (span : Span)
    (lvl : Int) (template : String) (args : List Arg) : Span × SugCall :=
  (sugaredTraceInfo s stack span lvl template false args,
   SugCall.f lvl template args)

/-- The key-value family (Debugw, .., Fatalw): sugaredTraceInfo with
the literal message and nil arguments — the key/value pairs never reach
the correlation path — then forward message and pairs to the Sink. -/
def sugaredW (s : TraceCfg) (stack : List Frame) (span : Span)
    (lvl : Int) (msg : String) (kvs : List Arg) : Span × SugCall :=
  (sugaredTraceInfo s stack span lvl msg false [], SugCall.w lvl msg kvs)

/-- The line family (Debugln, .., Fatalln): sugaredTraceInfo with an
empty template and ln=true, then forward the original arguments. -/
def sugaredLn (s : TraceCfg) (stack : List Frame) (span : Span)
    (lvl : Int) (args : List Arg) : Span × SugCall :=
  (sugaredTraceInfo s stack span lvl "" true args, SugCall.ln lvl args)

/-- The Go int8 conversion: wrap an Int into [-128, 127]. -/
def toInt8 (n : Int) : Int :=
  (n + 128) % 256 - 128

/-- The Go uint8 conversion: wrap an Int into [0, 255] (a Nat). -/
def toUInt8 (n : Int) : Nat :=
  (n % 256).toNat

/-- The config struct of the otel package: identifier-injection
toggles, the two severity thresholds, the stack-capture depth (int8)
and the extra caller skip (uint8). -/
structure Config where
  LogTraceId : Bool
  LogSpanId : Bool
  LogSampled : Bool
  LogLevel : Int
  ErrorStatusLevel : Int
  CallerDepth : Int
  CallerSkip : Nat
deriving DecidableEq, Repr

/-- The functional options of the otel package, one constructor per
With* option; WithCallerDepth carries the Go int argument before its
int8 cast, WithCallerSkip the Go int argument before its guard and
uint8 cast. -/
inductive ConfigOption where
  | withLogTraceId (enabled : Bool)
  | withLogSpanId (enabled : Bool)
  | withLogSampled (enabled : Bool)
  | withLogLevel (logLevel : Int)
  | withErrorStatusLevel (errorStatusLevel : Int)
  | withCallerDepth (depth : Int)
  | withCallerSkip (skip : Int)
deriving DecidableEq, Repr

/-- Option.apply: each option overwrites its one field; WithCallerDepth
stores int8(depth); WithCallerSkip stores uint8(skip) only when
skip > 0 and is a no-op otherwise. -/
def applyOpt (cfg : Config) : ConfigOption → Config
  | ConfigOption.withLogTraceId b => { cfg with LogTraceId := b }
  | ConfigOption.withLogSpanId b => { cfg with LogSpanId := b }
  | ConfigOption.withLogSampled b => { cfg with LogSampled := b }
  | ConfigOption.withLogLevel l => { cfg with LogLevel := l }
  | ConfigOption.withErrorStatusLevel l => { cfg with ErrorStatusLevel := l }
  | ConfigOption.withCallerDepth d => { cfg with CallerDepth := toInt8 d }
  | ConfigOption.withCallerSkip k =>
      if 0 < k then { cfg with CallerSkip := toUInt8 k } else cfg

/-- applyConfig (trace.go): start from the literal defaults
(LogTraceId true, both thresholds ErrorLevel, CallerDepth 8, all other
fields Go zero values) and apply the options in order. -/
def applyConfig (opts : List ConfigOption) : Config :=
  opts.foldl applyOpt
    { LogTraceId := true
      LogSpanId := false
      LogSampled := false
      LogLevel := ErrorLevel
      ErrorStatusLevel := ErrorLevel
      CallerDepth := 8
      CallerSkip := 0 }

/-- The observable part of a trace.SpanContext: validity (HasTraceID
and HasSpanID in the SDK, collapsed to one flag) and the rendered
trace id, span id and trace flags. -/
structure SpanContext where
  valid : Bool
  traceId : String
  spanId : String
  traceFlags : String
deriving DecidableEq, Repr

/-- trace.SpanContext.IsValid. -/
def SpanContext.isValid (sc : SpanContext) : Bool :=
  sc.valid

/-- The identifier fields WithContext / SugarWithContext inject into
the derived Sink: trace_id, span_id and sampled, each guarded by its
config toggle, in this order. -/
def injectedFields (cfg : Config) (sc : SpanContext) :
    List (String × String) :=
  (if cfg.LogTraceId then [("trace_id", sc.traceId)] else []) ++
    (if cfg.LogSpanId then [("span_id", sc.spanId)] else []) ++
    (if cfg.LogSampled then [("sampled", sc.traceFlags)] else [])

/-- The threshold/caller fields the constructors copy from the resolved
config into the decorator. -/
def cfgToTrace (cfg : Config) : TraceCfg :=
  { LogLevel := cfg.LogLevel
    ErrorStatusLevel := cfg.ErrorStatusLevel
    CallerDepth := cfg.CallerDepth
    CallerSkip := cfg.CallerSkip }

/-- Result of WithContext: either the base zap logger returned
unchanged, or a decorator wrapping a Sink derived with the injected
fields and holding the copied thresholds. -/
inductive StdResult where
  | base
  | decorated (cfg : TraceCfg) (fields : List (String × String))
deriving DecidableEq, Repr

/-- Result of SugarWithContext: either the base sugared logger returned
unchanged, or a sugared decorator with the injected fields and copied
thresholds. -/
inductive SugResult where
  | base
  | decorated (cfg : TraceCfg) (fields : List (String × String))
deriving DecidableEq, Repr

/-- WithContext (trace.go): a nil context returns the base logger; a
context whose span context is not valid returns the base logger;
otherwise resolve the config from the options, inject the configured
identifier fields and wrap a stdLogger decorator.  The context is
modelled as Option SpanContext: none is a nil context, some sc a
context from which trace.SpanContextFromContext extracts sc. -/
def WithContext (ctx : Option SpanContext) (opts : List ConfigOption) :
    StdResult :=
  match ctx with
  | none => StdResult.base
  | some sc =>
      if sc.isValid = false then StdResult.base
      else
        let cfg := applyConfig opts
        StdResult.decorated (cfgToTrace cfg) (injectedFields cfg sc)

/-- SugarWithContext (trace.go): same construction as WithContext for
the sugared decorator. -/
def SugarWithContext (ctx : Option SpanContext)
    (opts : List ConfigOption) : SugResult :=
  match ctx with
  | none => SugResult.base
  | some sc =>
      if sc.isValid = false then SugResult.base
      else
        let cfg := applyConfig opts
        SugResult.decorated (cfgToTrace cfg) (injectedFields cfg sc)

/-- C1: for every structured log call, the call is forwarded to the
wrapped Sink with severity, message and fields unchanged in every case;
a "log" span event carrying severity, message and caller attributes is
added iff the severity reaches the mirror threshold and the span is
recording; and the span status is set to error with the message iff the
severity reaches the error-status threshold and the span is
recording. -/
theorem stdLog_correlation {F : Type} (l : TraceCfg) (stack : List Frame)
    (span : Span) (lvl : Int) (msg : String) (fields : List F) :
    (stdLog l stack span lvl msg fields).2 = ⟨lvl, msg, fields⟩ ∧
    (stdLog l stack span lvl msg fields).1.events =
      (if span.recording = true ∧ l.LogLevel ≤ lvl then
        span.events ++ [("log",
          recordCaller stack
            [Attr.str "log.severity" (levelString lvl),
             Attr.str "log.message" msg]
            l.CallerDepth ((l.CallerSkip + 3) % 256))]
      else span.events) ∧
    (stdLog l stack span lvl msg fields).1.status =
      (if span.recording = true ∧ l.ErrorStatusLevel ≤ lvl then some msg
       else span.status) := by
  refine ⟨rfl, ?_, ?_⟩ <;>
    cases hrec : span.recording <;>
      by_cases h1 : l.LogLevel ≤ lvl <;>
        by_cases h2 : l.ErrorStatusLevel ≤ lvl <;>
          simp [stdLog, traceInfo, hrec, h1, h2]

/-- C2: the code contradicts the claim that stackDepth = 0 adds exactly
one function/file/line triple: because the frame loop breaks on the
frame whose `more` flag is false — which is the only captured frame
when the pc buffer has length one — recordCaller with callerDepth 0
returns the attribute list unchanged for every stack and skip value. -/
theorem recordCaller_depth_zero_noop (stack : List Frame)
    (attrs : List Attr) (skip : Nat) :
    recordCaller stack attrs 0 skip = attrs := by
  unfold recordCaller
  cases h : stack.drop skip <;> simp [h]

/-- C3: the code contradicts the claim that with stackDepth = N > 0 the
stack text contains exactly the available frames when fewer than N
exist: with one available frame and N = 2 the loop breaks before
processing it, so no caller triple is added and the stack-text
attribute is appended with empty text instead of the frame's line. -/
theorem recordCaller_drops_last_frame :
    recordCaller [⟨"main.main", "main.go", 42⟩] [] 2 0 =
      [Attr.str "exception.stacktrace" ""] := by decide

/-- C4: on a recording span, when the severity is below both the mirror
threshold and the error-status threshold, every sugared call family
leaves the span untouched (no message materialization, no caller
recording, no span mutation) and still forwards the original arguments
to the Sink. -/
theorem sugared_filtered_skips_work (s : TraceCfg) (stack : List Frame)
    (span : Span) (lvl : Int) (hrec : span.recording = true)
    (h1 : lvl < s.LogLevel) (h2 : lvl < s.ErrorStatusLevel) :
    (∀ args, sugaredPlain s stack span lvl args =
      (span, SugCall.plain lvl args)) ∧
    (∀ template args, sugaredF s stack span lvl template args =
      (span, SugCall.f lvl template args)) ∧
    (∀ msg kvs, sugaredW s stack span lvl msg kvs =
      (span, SugCall.w lvl msg kvs)) ∧
    (∀ args, sugaredLn s stack span lvl args =
      (span, SugCall.ln lvl args)) := by
  refine ⟨?_, ?_, ?_, ?_⟩ <;> intros <;>
    simp [sugaredPlain, sugaredF, sugaredW, sugaredLn, sugaredTraceInfo,
      hrec, h1, h2]

/-- Witness for C4 at a concrete filtered call. -/
theorem sugared_filtered_skips_work_witness :
    sugaredPlain ⟨2, 2, 8, 0⟩ [] ⟨true, [], none⟩ 0 [Arg.str "x"] =
      (⟨true, [], none⟩, SugCall.plain 0 [Arg.str "x"]) :=
  (sugared_filtered_skips_work ⟨2, 2, 8, 0⟩ [] ⟨true, [], none⟩ 0 rfl
    (by decide) (by decide)).1 [Arg.str "x"]

/-- C5: WithContext and SugarWithContext return the base logger
unchanged — no decorator, no injected fields — when the context is nil
or its span context is not valid, for every option sequence. -/
theorem withContext_degrades_to_base (opts : List ConfigOption)
    (sc : SpanContext) (h : sc.isValid = false) :
    WithContext none opts = StdResult.base ∧
    WithContext (some sc) opts = StdResult.base ∧
    SugarWithContext none opts = SugResult.base ∧
    SugarWithContext (some sc) opts = SugResult.base := by
  refine ⟨rfl, ?_, rfl, ?_⟩ <;> simp [WithContext, SugarWithContext, h]

/-- Witness for C5 at a concrete invalid span context. -/
theorem withContext_degrades_to_base_witness :
    WithContext (some ⟨false, "", "", "00"⟩) [] = StdResult.base :=
  (withContext_degrades_to_base [] ⟨false, "", "", "00"⟩ rfl).2.1

/-- C6: getMessage used verbatim on a single string argument with empty
template, empty on no template and no arguments, and printf-substituted
on a non-empty template. -/
theorem getMessage_modes :
    getMessage "" [Arg.str "hello"] = "hello" ∧
    getMessage "" [] = "" ∧
    getMessage "%d-%s" [Arg.int 3, Arg.str "x"] = "3-x" :=
  ⟨by decide, rfl, by decide⟩

/-- C7: getMessageln joins the arguments with single spaces and strips
the trailing newline of the println convention, for every argument
list; in particular on ["a", "b"] it yields "a b". -/
theorem getMessageln_space_joined :
    getMessageln [Arg.str "a", Arg.str "b"] = "a b" ∧
    ∀ args : List Arg, getMessageln args =
      String.intercalate " " (args.map argString) := by
  refine ⟨by decide, ?_⟩
  intro args
  show String.mk
    (String.intercalate " " (args.map argString) ++ "\n").data.dropLast = _
  rw [String.data_append]
  show String.mk
    ((String.intercalate " " (args.map argString)).data ++ ['\n']).dropLast = _
  rw [List.dropLast_concat]

/-- C8: for the key-value family at any severity on a recording span,
the span-side effect is independent of the key/value pairs (they never
enter the event attributes), the mirrored event and the error status
carry the literal message with no template substitution, and the pairs
are forwarded to the Sink together with that message. -/
theorem w_family_literal_message (s : TraceCfg) (stack : List Frame)
    (span : Span) (lvl : Int) (msg : String) (kvs kvs2 : List Arg)
    (hrec : span.recording = true) :
    (sugaredW s stack span lvl msg kvs).1 =
      (sugaredW s stack span lvl msg kvs2).1 ∧
    (sugaredW s stack span lvl msg kvs).2 = SugCall.w lvl msg kvs ∧
    (s.LogLevel ≤ lvl →
      (sugaredW s stack span lvl msg kvs).1.events =
        span.events ++ [("log",
          recordCaller stack
            [Attr.str "log.severity" (levelString lvl),
             Attr.str "log.message" msg]
            s.CallerDepth ((3 + s.CallerSkip) % 256))]) ∧
    (s.ErrorStatusLevel ≤ lvl →
      (sugaredW s stack span lvl msg kvs).1.status = some msg) := by
  refine ⟨rfl, rfl, ?_, ?_⟩
  · intro h1
    have hno : ¬ (lvl < s.LogLevel ∧ lvl < s.ErrorStatusLevel) := by
      intro h
      exact absurd h.1 (not_lt.2 h1)
    by_cases h2 : s.ErrorStatusLevel ≤ lvl <;>
      simp [sugaredW, sugaredTraceInfo, hrec, hno, h1, h2, getMessage]
  · intro h2
    have hno : ¬ (lvl < s.LogLevel ∧ lvl < s.ErrorStatusLevel) := by
      intro h
      exact absurd h.2 (not_lt.2 h2)
    by_cases h1 : s.LogLevel ≤ lvl <;>
      simp [sugaredW, sugaredTraceInfo, hrec, hno, h1, h2, getMessage]

/-- Witness for C8 at a concrete recording span. -/
theorem w_family_literal_message_witness :
    (sugaredW ⟨2, 2, -1, 0⟩ [] ⟨true, [], none⟩ 2 "boom"
        [Arg.str "k", Arg.int 1]).1.status = some "boom" :=
  (w_family_literal_message ⟨2, 2, -1, 0⟩ [] ⟨true, [], none⟩ 2 "boom"
    [Arg.str "k", Arg.int 1] [] rfl).2.2.2 (by decide)

/-- C9: recordCaller with a negative stackDepth returns the attribute
list unchanged for every stack, attribute list and skip value. -/
theorem recordCaller_negative_depth_noop (stack : List Frame)
    (attrs : List Attr) (d : Int) (skip : Nat) (h : d < 0) :
    recordCaller stack attrs d skip = attrs := by
  unfold recordCaller
  rw [if_neg (not_le.2 h)]

/-- Witness for C9 at depth -1, skip 5. -/
theorem recordCaller_negative_depth_noop_witness :
    recordCaller [⟨"main.main", "main.go", 42⟩]
      [Attr.str "k" "v"] (-1) 5 = [Attr.str "k" "v"] :=
  recordCaller_negative_depth_noop _ _ _ _ (by decide)

/-- C10: resolving the config from no options yields trace-id injection
on, span-id and sampled injection off, both thresholds ErrorLevel,
stack depth 8 and extra skip 0; hence a decorator built with default
options injects only the trace_id field and carries Error/Error
thresholds. -/
theorem applyConfig_defaults (sc : SpanContext) (h : sc.isValid = true) :
    applyConfig [] =
      { LogTraceId := true, LogSpanId := false, LogSampled := false,
        LogLevel := ErrorLevel, ErrorStatusLevel := ErrorLevel,
        CallerDepth := 8, CallerSkip := 0 } ∧
    WithContext (some sc) [] =
      StdResult.decorated ⟨ErrorLevel, ErrorLevel, 8, 0⟩
        [("trace_id", sc.traceId)] := by
  refine ⟨rfl, ?_⟩
  simp [WithContext, h, applyConfig, injectedFields, cfgToTrace, ErrorLevel]

/-- Witness for C10 at a concrete valid span context. -/
theorem applyConfig_defaults_witness :
    WithContext (some ⟨true, "abc", "def", "01"⟩) [] =
      StdResult.decorated ⟨ErrorLevel, ErrorLevel, 8, 0⟩
        [("trace_id", "abc")] :=
  (applyConfig_defaults ⟨true, "abc", "def", "01"⟩ rfl).2

end EasyLog
